import Mathlib

/-!
Verification development for the remote transcription and enhancement
pipeline (files `transcribe_audio.py` and `whisper_transcribe.py`).

The Python sources are shallowly embedded: pure string manipulation is
translated function-for-function, the orchestration in `transcribe_audio`
becomes a pure function over an `Env` record holding the outcomes of the
external effects (shell commands, file reads, Anthropic API calls), and the
result records the exact shell-command strings issued and the artifact files
written, in order.
-/

/- ---------------------------------------------------------------------- -/
/- Basic character and string helpers shared by both embedded files.      -/
/- ---------------------------------------------------------------------- -/

/-- The single-quote character, written by code point to keep source plain. -/
def squoteChar : Char := Char.ofNat 39

/-- One-character string holding a single quote. -/
def squote : String := String.mk [squoteChar]

/-- Whitespace recognised by Python `str.strip()` (ASCII subset). -/
def pyIsSpace (c : Char) : Bool :=
  c = ' ' ∨ c = '\t' ∨ c = '\n' ∨ c = '\x0d' ∨ c = Char.ofNat 11 ∨ c = Char.ofNat 12

/-- Python `str.strip()` on a character list. -/
def stripChars (cs : List Char) : List Char :=
  ((cs.dropWhile pyIsSpace).reverse.dropWhile pyIsSpace).reverse

/-- Python `str.strip()` on a string. -/
def stripString (s : String) : String :=
  String.mk (stripChars s.data)

/- ---------------------------------------------------------------------- -/
/- whisper_transcribe.py : model list and constructor validation.         -/
/- ---------------------------------------------------------------------- -/

/-- `AudioTranscriber.SUPPORTED_MODELS` from `whisper_transcribe.py`. -/
def SUPPORTED_MODELS : List String :=
  ["tiny", "base", "small", "medium", "large", "large-v2", "large-v3"]

/-- `AudioTranscriber.OPTIMAL_SAMPLE_RATE` from `whisper_transcribe.py`. -/
def OPTIMAL_SAMPLE_RATE : Nat := 16000

/-- The loaded-transcriber state: `AudioTranscriber` keeps the model name
(the loaded model handle itself is the external whisper library). -/
structure AudioTranscriber where
  model_name : String
deriving DecidableEq, Repr

/-- `AudioTranscriber.__init__`: raises `ValueError` when the requested
model name is not in `SUPPORTED_MODELS`, before any model is loaded. -/
def audioTranscriberInit (model_name : String) : Except String AudioTranscriber :=
  if model_name ∈ SUPPORTED_MODELS then
    Except.ok ⟨model_name⟩
  else
    Except.error "Model must be one of SUPPORTED_MODELS"

/- ---------------------------------------------------------------------- -/
/- whisper_transcribe.py : audio preprocessing (`_preprocess_audio`).     -/
/-                                                                        -/
/- A pydub `AudioSegment` is modelled by its channel count, frame rate    -/
/- and sample values (rationals stand in for the fixed-width integer      -/
/- samples; pydub gain application is a scalar multiplication).  The      -/
/- sample rewriting done by `set_channels` (downmix averaging) and        -/
/- `set_frame_rate` (resampling) is not tracked, because the final        -/
/- amplitude is fully determined by the `normalize` call that follows     -/
/- both; only their effect on the `channels` / `frame_rate` fields is     -/
/- observable to the claims.                                              -/
/- ---------------------------------------------------------------------- -/

structure AudioSegment where
  channels : Nat
  frame_rate : Nat
  samples : List ℚ
  max_possible_amplitude : ℚ

/-- pydub `seg.max`: the peak absolute sample value. -/
def segPeak (a : AudioSegment) : ℚ :=
  (a.samples.map (fun s => |s|)).foldr max 0

/-- pydub `set_channels` (sample rewriting abstracted, see above). -/
def setChannels (a : AudioSegment) (n : Nat) : AudioSegment :=
  { a with channels := n }

/-- pydub `set_frame_rate` (sample rewriting abstracted, see above). -/
def setFrameRate (a : AudioSegment) (r : Nat) : AudioSegment :=
  { a with frame_rate := r }

/-- pydub `apply_gain` by a linear ratio. -/
def applyGainRatio (a : AudioSegment) (g : ℚ) : AudioSegment :=
  { a with samples := a.samples.map (fun s => s * g) }

/-- pydub `effects.normalize` with headroom 0.1 dB: a no-op on silence,
otherwise a gain of `target_peak / peak` where
`target_peak = max_possible_amplitude * db_to_float(-headroom)`.
The irrational factor `db_to_float(-0.1)` is passed in as `headroomFactor`. -/
def pydubNormalize (headroomFactor : ℚ) (a : AudioSegment) : AudioSegment :=
  let peak := segPeak a
  if peak = 0 then a
  else applyGainRatio a (a.max_possible_amplitude * headroomFactor / peak)

/-- First step of `_preprocess_audio`: `if audio.channels > 1:
audio = audio.set_channels(1)`. -/
def downmixIfNeeded (a : AudioSegment) : AudioSegment :=
  if a.channels > 1 then setChannels a 1 else a

/-- Second step of `_preprocess_audio`: `if audio.frame_rate !=
self.OPTIMAL_SAMPLE_RATE: audio = audio.set_frame_rate(...)`. -/
def resampleIfNeeded (a : AudioSegment) : AudioSegment :=
  if a.frame_rate ≠ OPTIMAL_SAMPLE_RATE then setFrameRate a OPTIMAL_SAMPLE_RATE else a

/-- `AudioTranscriber._preprocess_audio`: downmix to mono when
multi-channel, resample to 16 kHz when at another rate, then normalize. -/
def preprocess_audio (headroomFactor : ℚ) (a : AudioSegment) : AudioSegment :=
  pydubNormalize headroomFactor (resampleIfNeeded (downmixIfNeeded a))

/- ---------------------------------------------------------------------- -/
/- whisper_transcribe.py : `format_sentences`.                            -/
/-                                                                        -/
/- `re.split(r'([.!?]+)', text)` splits `text` at maximal runs of the     -/
/- characters `.`, `!`, `?`, keeping the runs: the result alternates      -/
/- text piece, punctuation run, text piece, ..., beginning and ending     -/
/- with a (possibly empty) text piece.  It is embedded as maximal-run     -/
/- grouping (`runsOf`) followed by the alternation fix-up (`toSplitAux`). -/
/- ---------------------------------------------------------------------- -/

/-- Membership in the `[.!?]` character class. -/
def isSentencePunct (c : Char) : Bool :=
  c = '.' ∨ c = '!' ∨ c = '?'

/-- Prepend one character to a maximal-run decomposition. -/
def stepRun (c : Char) : List (Bool × List Char) → List (Bool × List Char)
  | [] => [(isSentencePunct c, [c])]
  | (b, r) :: rest =>
      if b = isSentencePunct c then (b, c :: r) :: rest
      else (isSentencePunct c, [c]) :: (b, r) :: rest

/-- Maximal runs of `cs`, each tagged with whether it is a `[.!?]` run. -/
def runsOf : List Char → List (Bool × List Char)
  | [] => []
  | c :: cs => stepRun c (runsOf cs)

/-- Turn the run decomposition into the `re.split` result list.  The flag
records whether a separator run is expected next (`false`: a text piece is
expected, so a punctuation run gets an empty text piece inserted first). -/
def toSplitAux : Bool → List (Bool × List Char) → List (List Char)
  | false, [] => [[]]
  | true, [] => []
  | false, (false, r) :: rest => r :: toSplitAux true rest
  | false, (true, r) :: rest => [] :: r :: toSplitAux false rest
  | true, (true, r) :: rest => r :: toSplitAux false rest
  | true, (false, r) :: rest => [] :: r :: toSplitAux true rest

/-- `re.split(r'([.!?]+)', text)` on a character list. -/
def pySplitPunct (cs : List Char) : List (List Char) :=
  toSplitAux false (runsOf cs)

/-- The reconstruction loop of `format_sentences`: for each
(text piece, punctuation run) pair, keep `text.strip() + punctuation` when
the stripped text is non-empty; the final lone text piece (the loop bound
is `len(sentences) - 1`) is dropped. -/
def collectSentences : List (List Char) → List (List Char)
  | t :: p :: rest =>
      (if stripChars t = [] then [] else [stripChars t ++ p]) ++ collectSentences rest
  | _ => []

/-- Python `'\n'.join`. -/
def joinNewline : List (List Char) → List Char
  | [] => []
  | [x] => x
  | x :: y :: rest => x ++ '\n' :: joinNewline (y :: rest)

/-- `format_sentences` on a character list. -/
def formatSentencesChars (cs : List Char) : List Char :=
  stripChars (joinNewline (collectSentences (pySplitPunct cs)))

/-- `format_sentences` from `whisper_transcribe.py`. -/
def format_sentences (text : String) : String :=
  String.mk (formatSentencesChars text.data)

/-- `main` of `whisper_transcribe.py`, from the point where the black-box
transcription text is in hand: `AudioTranscriber.transcribe` returns
`result["text"].strip()`, `main` prints `format_sentences` of it, and the
orchestrator redirects that stdout into the remote transcript file, so the
file holds the formatted text plus the trailing newline of `print`. -/
def whisperMainOutput (blackboxText : String) : String :=
  format_sentences (stripString blackboxText) ++ "\n"

example : format_sentences "hello world" = "" := by decide
example : format_sentences "Hi. Bye" = "Hi." := by decide
example : format_sentences "A. B! C?" = "A.\nB!\nC?" := by decide
example : pySplitPunct "a.b".data = ["a".data, ".".data, "b".data] := by decide
example : pySplitPunct ".a".data = ["".data, ".".data, "a".data] := by decide
example : pySplitPunct "a.".data = ["a".data, ".".data, "".data] := by decide

/- ---------------------------------------------------------------------- -/
/- transcribe_audio.py : shlex.quote.                                     -/
/- ---------------------------------------------------------------------- -/

/-- The characters Python `shlex.quote` leaves unquoted: ASCII word
characters plus at-sign, percent, plus, equals, colon, comma, dot, slash
and hyphen (the complement of its `_find_unsafe` ASCII regex). -/
def isShlexSafe (c : Char) : Bool :=
  c.isAlphanum ∨ c = '_' ∨ c = '@' ∨ c = '%' ∨ c = '+' ∨ c = '=' ∨ c = ':' ∨
    c = ',' ∨ c = '.' ∨ c = '/' ∨ c = '-'

/-- The `s.replace("'", "'\"'\"'")` step of `shlex.quote`, per character. -/
def shlexEscChar (c : Char) : List Char :=
  if c = squoteChar then [squoteChar, '"', squoteChar, '"', squoteChar] else [c]

/-- Python `shlex.quote`. -/
def shlexQuote (s : String) : String :=
  if s = "" then squote ++ squote
  else if s.data.all isShlexSafe then s
  else squote ++ String.mk (s.data.flatMap shlexEscChar) ++ squote

/- ---------------------------------------------------------------------- -/
/- transcribe_audio.py : pathlib fragments used by the orchestrator.      -/
/- Paths are strings; `Path.name`, `Path.stem`, `Path.suffix` and         -/
/- `Path.parent` follow the pathlib definitions (`suffix` is the part     -/
/- from the last dot of the name when that dot is neither the first nor   -/
/- the last character of the name).                                       -/
/- ---------------------------------------------------------------------- -/

/-- `Path(p).name`: the part after the last slash. -/
def pathName (p : String) : String :=
  String.mk (p.data.reverse.takeWhile (fun c => c ≠ '/')).reverse

/-- `Path(p).parent` (as a string; `"."` when there is no slash). -/
def pathParent (p : String) : String :=
  let rest := p.data.reverse.dropWhile (fun c => c ≠ '/')
  if rest = [] then "."
  else if rest = ['/'] then "/"
  else String.mk (rest.drop 1).reverse

/-- `Path(p).stem`: the name with its suffix removed. -/
def pathStem (p : String) : String :=
  let nm := (pathName p).data
  let post := nm.reverse.takeWhile (fun c => c ≠ '.')
  if post.length ≠ nm.length ∧ 0 < post.length ∧ post.length < nm.length - 1 then
    String.mk (nm.take (nm.length - post.length - 1))
  else String.mk nm

/-- `Path(p).suffix`. -/
def pathSuffix (p : String) : String :=
  let nm := (pathName p).data
  let post := nm.reverse.takeWhile (fun c => c ≠ '.')
  if post.length ≠ nm.length ∧ 0 < post.length ∧ post.length < nm.length - 1 then
    String.mk (nm.drop (nm.length - post.length - 1))
  else ""

example : pathName "/a/x.m4a" = "x.m4a" := by decide
example : pathStem "/a/x.m4a" = "x" := by decide
example : pathSuffix "/a/x.m4a" = ".m4a" := by decide
example : pathParent "/a/x.m4a" = "/a" := by decide

/- ---------------------------------------------------------------------- -/
/- transcribe_audio.py : the shell-command strings the orchestrator hands -/
/- to `run_command` (which invokes `subprocess.run(..., shell=True)`).    -/
/- ---------------------------------------------------------------------- -/

/-- Step 1: `f"scp whisper_transcribe.py {transcript_host}:~/whisper_transcribe.py"`. -/
def scriptCopyCmd (host : String) : String :=
  "scp whisper_transcribe.py " ++ host ++ ":~/whisper_transcribe.py"

/-- Step 2: `f'scp "{audio_file_path}" {transcript_host}:/tmp/"{audio_filename}"'`. -/
def audioCopyCmd (host audio_file_path audio_filename : String) : String :=
  "scp \"" ++ audio_file_path ++ "\" " ++ host ++ ":/tmp/\"" ++ audio_filename ++ "\""

/-- Step 3, the remote shell line: model, language and verbose flags are
concatenated bare; the initial prompt (when truthy) and the two remote
paths go through `shlex.quote`. -/
def remoteCmd (model : String) (initial_prompt : Option String)
    (audio_filename text_filename : String) : String :=
  let base := ".local/bin/uv run whisper_transcribe.py" ++ " --model " ++ model ++
    " --language en" ++ " --verbose"
  let withPrompt :=
    if (initial_prompt.getD "") = "" then base
    else base ++ " --prompt " ++ shlexQuote (initial_prompt.getD "")
  withPrompt ++ " " ++ shlexQuote ("/tmp/" ++ audio_filename) ++ " > " ++
    shlexQuote ("/tmp/" ++ text_filename)

/-- Step 3, the local command: `f'ssh {transcript_host} {shlex.quote(remote_cmd)}'`. -/
def transcribeCmd (host model : String) (initial_prompt : Option String)
    (audio_filename text_filename : String) : String :=
  "ssh " ++ host ++ " " ++ shlexQuote (remoteCmd model initial_prompt audio_filename text_filename)

/-- Step 4: `f'scp {transcript_host}:"/tmp/{text_filename}" "{output_path}"'`. -/
def transcriptCopyCmd (host text_filename output_path : String) : String :=
  "scp " ++ host ++ ":\"/tmp/" ++ text_filename ++ "\" \"" ++ output_path ++ "\""

/-- Step 6: `f'''ssh {transcript_host} "rm -f '/tmp/{audio_filename}' '/tmp/{text_filename}'"'''`. -/
def cleanupCmd (host audio_filename text_filename : String) : String :=
  "ssh " ++ host ++ " \"rm -f " ++ squote ++ "/tmp/" ++ audio_filename ++ squote ++
    " " ++ squote ++ "/tmp/" ++ text_filename ++ squote ++ "\""

/-- The interactive model menu of `select_model` in `transcribe_audio.py`. -/
def selectModelChoices : List String := ["large", "medium.en", "turbo"]

/- ---------------------------------------------------------------------- -/
/- transcribe_audio.py : Anthropic prompt construction and the            -/
/- `clean_transcript` call.                                               -/
/- ---------------------------------------------------------------------- -/

def defaultSummaryPrompt : String :=
  "Process the following transcript and attempt to provide the full content, but in format that logically flows and has structure and headings."

def cleanPromptBase : String :=
  "The following is an audio recording transcript. Process it to remove any clear transcription errors."

def slackSuffixPrompt : String := " Format as a Slack message."

def transcriptHeader : String := "\n\n        Transcript:\n        "

/-- The prompt string `clean_transcript` sends to the Anthropic API. -/
def buildPrompt (mode : String) (format_slack : Bool) (system_prompt : Option String)
    (transcript_text : String) : String :=
  let base :=
    if mode = "summary" then
      (if (system_prompt.getD "") = "" then defaultSummaryPrompt else system_prompt.getD "")
    else cleanPromptBase
  let p1 := if format_slack then base ++ slackSuffixPrompt else base
  p1 ++ transcriptHeader ++ transcript_text

/-- `clean_transcript`: builds the prompt and performs the black-box API
call; any API failure is caught and surfaces as `none`.  The black box is
the `api` function (prompt string to optional response text). -/
def clean_transcript (api : String → Option String) (transcript_text : String)
    (mode : String) (format_slack : Bool) (system_prompt : Option String) : Option String :=
  api (buildPrompt mode format_slack system_prompt transcript_text)

/- ---------------------------------------------------------------------- -/
/- transcribe_audio.py : the `transcribe_audio` orchestration.            -/
/- ---------------------------------------------------------------------- -/

/-- Outcomes of the external world for one run: whether the audio file
exists, the exit status of each shell command (by command string), the
`ANTHROPIC_KEY` environment variable, the content of the remote transcript
file (what `scp` deposits at the output path in step 4), and the Anthropic
API as a function from prompt to optional response. -/
structure Env where
  fileExists : Bool
  runOk : String → Bool
  anthropicKey : Option String
  rawTranscript : String
  api : String → Option String

/-- The observable outcome of `transcribe_audio`: the returned verdict, the
shell commands handed to `run_command` in order, and the files written
locally as (path, content) pairs in order of writing. -/
structure RunResult where
  success : Bool
  commands : List String
  artifacts : List (String × String)
deriving DecidableEq, Repr

/-- A derived artifact path:
`output_path.parent / f"{output_path.stem}{tag}{output_path.suffix}"`. -/
def derivedPath (output_path tag : String) : String :=
  pathParent output_path ++ "/" ++ pathStem output_path ++ tag ++ pathSuffix output_path

/-- Step 5 of `transcribe_audio` (the body of the `else` branch once the
API key is present): clean, then summarize, then Slack-format, each stage
falling back to the previous text and writing no file when its API call
returns `None`. -/
def enhanceTranscript (api : String → Option String)
    (clean_transcript_flag summary_mode format_slack : Bool)
    (summary_system_prompt : Option String)
    (cleanedPath summaryPath summarySlackPath cleanedSlackPath : String)
    (raw : String) : List (String × String) :=
  let s1 :=
    if clean_transcript_flag ∨ summary_mode then
      match clean_transcript api raw "clean" false none with
      | some cleaned => ([(cleanedPath, cleaned)], cleaned)
      | none => (([] : List (String × String)), raw)
    else (([] : List (String × String)), raw)
  let s2 :=
    if summary_mode then
      match clean_transcript api s1.2 "summary" false summary_system_prompt with
      | some t => (s1.1 ++ [(summaryPath, t)], t)
      | none => s1
    else s1
  if format_slack then
    match clean_transcript api s2.2 "clean" true none with
    | some t => s2.1 ++ [((if summary_mode then summarySlackPath else cleanedSlackPath), t)]
    | none => s2.1
  else s2.1

/-- `transcribe_audio` from `transcribe_audio.py`.  Mirrors the Python
control flow: early `return False` without cleanup when any of steps 1-4
fails; enhancement (step 5) is skipped with a warning when `ANTHROPIC_KEY`
is unset or empty; the cleanup command of step 6 runs only after steps 1-4
all succeeded, and its failure does not affect the verdict. -/
def transcribe_audio (env : Env) (transcript_host audio_file_path model : String)
    (clean_transcript_flag summary_mode format_slack : Bool)
    (output_dir : Option String)
    (initial_prompt summary_system_prompt : Option String) : RunResult :=
  if audio_file_path = "" then ⟨false, [], []⟩
  else if ¬ env.fileExists then ⟨false, [], []⟩
  else
    let audio_filename := pathName audio_file_path
    let text_filename := pathStem audio_file_path ++ ".txt"
    let dir := output_dir.getD (pathParent audio_file_path)
    let output_path := dir ++ "/" ++ text_filename
    let c1 := scriptCopyCmd transcript_host
    if ¬ env.runOk c1 then ⟨false, [c1], []⟩ else
    let c2 := audioCopyCmd transcript_host audio_file_path audio_filename
    if ¬ env.runOk c2 then ⟨false, [c1, c2], []⟩ else
    let c3 := transcribeCmd transcript_host model initial_prompt audio_filename text_filename
    if ¬ env.runOk c3 then ⟨false, [c1, c2, c3], []⟩ else
    let c4 := transcriptCopyCmd transcript_host text_filename output_path
    if ¬ env.runOk c4 then ⟨false, [c1, c2, c3, c4], []⟩ else
    let enhanced :=
      if clean_transcript_flag ∨ summary_mode then
        if env.anthropicKey.getD "" = "" then []
        else
          enhanceTranscript env.api clean_transcript_flag summary_mode format_slack
            summary_system_prompt
            (derivedPath output_path "_cleaned") (derivedPath output_path "_summary")
            (derivedPath output_path "_summary_slack") (derivedPath output_path "_cleaned_slack")
            env.rawTranscript
      else []
    let c6 := cleanupCmd transcript_host audio_filename text_filename
    ⟨true, [c1, c2, c3, c4, c6], (output_path, env.rawTranscript) :: enhanced⟩

/-- An all-good environment used by concrete runs: every command succeeds
and every API call answers. -/
def happyEnv (key : Option String) (rawT : String) (api : String → Option String) : Env :=
  { fileExists := true, runOk := fun _ => true, anthropicKey := key,
    rawTranscript := rawT, api := api }

example :
    transcribe_audio (happyEnv none "R" (fun _ => some "A")) "h" "/a/x.m4a" "turbo"
      false false false none none none =
    ⟨true,
      [scriptCopyCmd "h", audioCopyCmd "h" "/a/x.m4a" "x.m4a",
        transcribeCmd "h" "turbo" none "x.m4a" "x.txt",
        transcriptCopyCmd "h" "x.txt" "/a/x.txt", cleanupCmd "h" "x.m4a" "x.txt"],
      [("/a/x.txt", "R")]⟩ := by decide

/- ---------------------------------------------------------------------- -/
/- Lemmas about audio preprocessing (claim C9).                           -/
/- ---------------------------------------------------------------------- -/

lemma foldr_max_nonneg (l : List ℚ) : 0 ≤ (l.map (fun s => |s|)).foldr max 0 := by
  induction l with
  | nil => simp
  | cons x xs ih => exact le_trans ih (by simp)

lemma segPeak_nonneg (a : AudioSegment) : 0 ≤ segPeak a :=
  foldr_max_nonneg a.samples

lemma foldr_max_scale (g : ℚ) (hg : 0 ≤ g) (l : List ℚ) :
    ((l.map (fun s => s * g)).map (fun s => |s|)).foldr max 0 =
      ((l.map (fun s => |s|)).foldr max 0) * g := by
  induction l with
  | nil => simp
  | cons x xs ih =>
      simp only [List.map_cons, List.foldr_cons, ih, abs_mul, abs_of_nonneg hg]
      rw [max_mul_of_nonneg _ _ hg]

lemma segPeak_applyGainRatio (a : AudioSegment) (g : ℚ) (hg : 0 ≤ g) :
    segPeak (applyGainRatio a g) = segPeak a * g := by
  unfold segPeak applyGainRatio
  exact foldr_max_scale g hg a.samples

lemma pydubNormalize_eq (hf : ℚ) (a : AudioSegment) :
    pydubNormalize hf a =
      if segPeak a = 0 then a
      else applyGainRatio a (a.max_possible_amplitude * hf / segPeak a) := rfl

lemma pydubNormalize_channels (hf : ℚ) (a : AudioSegment) :
    (pydubNormalize hf a).channels = a.channels := by
  rw [pydubNormalize_eq]; split <;> rfl

lemma pydubNormalize_frame_rate (hf : ℚ) (a : AudioSegment) :
    (pydubNormalize hf a).frame_rate = a.frame_rate := by
  rw [pydubNormalize_eq]; split <;> rfl

lemma pydubNormalize_peak (hf : ℚ) (a : AudioSegment)
    (hmax : 0 ≤ a.max_possible_amplitude) (hhf : 0 ≤ hf) :
    segPeak (pydubNormalize hf a) ≤ a.max_possible_amplitude * hf := by
  rw [pydubNormalize_eq]
  by_cases hp : segPeak a = 0
  · rw [if_pos hp, hp]
    exact mul_nonneg hmax hhf
  · rw [if_neg hp]
    have hg : 0 ≤ a.max_possible_amplitude * hf / segPeak a :=
      div_nonneg (mul_nonneg hmax hhf) (segPeak_nonneg a)
    rw [segPeak_applyGainRatio a _ hg, mul_comm, div_mul_cancel₀ _ hp]

lemma downmixIfNeeded_channels (a : AudioSegment) (h : 1 ≤ a.channels) :
    (downmixIfNeeded a).channels = 1 := by
  unfold downmixIfNeeded
  by_cases h1 : a.channels > 1
  · rw [if_pos h1]; rfl
  · rw [if_neg h1]; omega

lemma downmixIfNeeded_frame_rate (a : AudioSegment) :
    (downmixIfNeeded a).frame_rate = a.frame_rate := by
  unfold downmixIfNeeded; split <;> rfl

lemma downmixIfNeeded_max (a : AudioSegment) :
    (downmixIfNeeded a).max_possible_amplitude = a.max_possible_amplitude := by
  unfold downmixIfNeeded; split <;> rfl

lemma resampleIfNeeded_frame_rate (a : AudioSegment) :
    (resampleIfNeeded a).frame_rate = OPTIMAL_SAMPLE_RATE := by
  unfold resampleIfNeeded
  by_cases h : a.frame_rate ≠ OPTIMAL_SAMPLE_RATE
  · rw [if_pos h]; rfl
  · rw [if_neg h]; omega

lemma resampleIfNeeded_channels (a : AudioSegment) :
    (resampleIfNeeded a).channels = a.channels := by
  unfold resampleIfNeeded; split <;> rfl

lemma resampleIfNeeded_max (a : AudioSegment) :
    (resampleIfNeeded a).max_possible_amplitude = a.max_possible_amplitude := by
  unfold resampleIfNeeded; split <;> rfl

/-- Claim C9: for every audio buffer (with at least one channel, as any
decoded pydub segment has), preprocessing yields mono, a 16000 Hz frame
rate, and a peak amplitude within the normalized range (at most the
headroom-scaled full-scale target, itself at most full scale), all three
simultaneously.  `hf` stands for pydub's positive sub-unit headroom factor
`db_to_float(-0.1)`. -/
theorem preprocess_audio_invariants (hf : ℚ) (a : AudioSegment)
    (hch : 1 ≤ a.channels) (hmax : 0 ≤ a.max_possible_amplitude)
    (hhf0 : 0 ≤ hf) (hhf1 : hf ≤ 1) :
    (preprocess_audio hf a).channels = 1 ∧
    (preprocess_audio hf a).frame_rate = OPTIMAL_SAMPLE_RATE ∧
    segPeak (preprocess_audio hf a) ≤ a.max_possible_amplitude * hf ∧
    a.max_possible_amplitude * hf ≤ a.max_possible_amplitude := by
  have hmax2 : (resampleIfNeeded (downmixIfNeeded a)).max_possible_amplitude =
      a.max_possible_amplitude := by
    rw [resampleIfNeeded_max, downmixIfNeeded_max]
  refine ⟨?_, ?_, ?_, ?_⟩
  · rw [preprocess_audio, pydubNormalize_channels, resampleIfNeeded_channels,
      downmixIfNeeded_channels a hch]
  · rw [preprocess_audio, pydubNormalize_frame_rate, resampleIfNeeded_frame_rate]
  · have := pydubNormalize_peak hf (resampleIfNeeded (downmixIfNeeded a))
      (by rw [hmax2]; exact hmax) hhf0
    rwa [hmax2] at this
  · calc a.max_possible_amplitude * hf ≤ a.max_possible_amplitude * 1 :=
        mul_le_mul_of_nonneg_left hhf1 hmax
    _ = a.max_possible_amplitude := mul_one _

/-- Witness for `preprocess_audio_invariants` at a concrete stereo 44.1 kHz
buffer and a concrete rational headroom factor. -/
theorem preprocess_audio_invariants_witness :
    (preprocess_audio (98855/100000)
        ⟨2, 44100, [(1:ℚ)/2, -(1:ℚ)/4], 1⟩).channels = 1 ∧
    (preprocess_audio (98855/100000)
        ⟨2, 44100, [(1:ℚ)/2, -(1:ℚ)/4], 1⟩).frame_rate = OPTIMAL_SAMPLE_RATE ∧
    segPeak (preprocess_audio (98855/100000)
        ⟨2, 44100, [(1:ℚ)/2, -(1:ℚ)/4], 1⟩) ≤ (1:ℚ) * (98855/100000) ∧
    (1:ℚ) * (98855/100000) ≤ 1 :=
  preprocess_audio_invariants (98855/100000) ⟨2, 44100, [(1:ℚ)/2, -(1:ℚ)/4], 1⟩
    (by norm_num) (by norm_num) (by norm_num) (by norm_num)

/- ---------------------------------------------------------------------- -/
/- Lemmas about format_sentences (claims C10 and C5).                     -/
/- ---------------------------------------------------------------------- -/

lemma string_data_append (a b : String) : (a ++ b).data = a.data ++ b.data := by
  cases a; cases b; rfl

lemma runsOf_noPunct : ∀ (cs : List Char), cs ≠ [] →
    (∀ c ∈ cs, isSentencePunct c = false) → runsOf cs = [(false, cs)]
  | [], h, _ => absurd rfl h
  | [c], _, hp => by
      simp only [runsOf, stepRun]
      rw [hp c (List.mem_singleton.mpr rfl)]
  | c :: d :: cs, _, hp => by
      have ih := runsOf_noPunct (d :: cs) (List.cons_ne_nil d cs)
        (fun x hx => hp x (List.mem_cons_of_mem c hx))
      simp only [runsOf] at ih ⊢
      rw [ih]
      simp only [stepRun]
      rw [hp c (List.mem_cons_self c (d :: cs))]
      simp

/-- Appending non-punctuation text extends the final run (or adds a final
text run) of the run decomposition. -/
def extendLastText (t : List Char) : List (Bool × List Char) → List (Bool × List Char)
  | [] => [(false, t)]
  | [(false, r)] => [(false, r ++ t)]
  | [(true, r)] => [(true, r), (false, t)]
  | x :: y :: rest => x :: extendLastText t (y :: rest)

lemma stepRun_extendLastText (c : Char) (t : List Char) :
    ∀ X, stepRun c (extendLastText t X) = extendLastText t (stepRun c X)
  | [] => by
      cases hc : isSentencePunct c <;>
        simp [stepRun, extendLastText, hc]
  | [(false, r)] => by
      cases hc : isSentencePunct c <;>
        simp [stepRun, extendLastText, hc]
  | [(true, r)] => by
      cases hc : isSentencePunct c <;>
        simp [stepRun, extendLastText, hc]
  | (bx, r) :: y :: rest => by
      by_cases hb : bx = isSentencePunct c <;>
        simp [stepRun, extendLastText, hb]

lemma runsOf_append (t : List Char) (htne : t ≠ [])
    (ht : ∀ c ∈ t, isSentencePunct c = false) :
    ∀ cs, runsOf (cs ++ t) = extendLastText t (runsOf cs)
  | [] => by
      simp only [List.nil_append, runsOf]
      rw [runsOf_noPunct t htne ht]
      rfl
  | c :: cs => by
      show stepRun c (runsOf (cs ++ t)) = extendLastText t (stepRun c (runsOf cs))
      rw [runsOf_append t htne ht cs, stepRun_extendLastText]

/-- Replace the final element of a list of character lists. -/
def modifyLast (f : List Char → List Char) : List (List Char) → List (List Char)
  | [] => []
  | [x] => [f x]
  | x :: y :: rest => x :: modifyLast f (y :: rest)

lemma toSplitAux_ne_nil (b : Bool) (x : Bool × List Char) (rest : List (Bool × List Char)) :
    toSplitAux b (x :: rest) ≠ [] := by
  cases b <;> rcases x with ⟨bx, r⟩ <;> cases bx <;> simp [toSplitAux]

lemma modifyLast_cons (f : List Char → List Char) (a : List Char)
    (l : List (List Char)) (h : l ≠ []) :
    modifyLast f (a :: l) = a :: modifyLast f l := by
  cases l with
  | nil => exact absurd rfl h
  | cons y rest => rfl

lemma toSplitAux_extendLastText (t : List Char) :
    ∀ (X : List (Bool × List Char)) (b : Bool), (X = [] → b = false) →
      toSplitAux b (extendLastText t X) = modifyLast (fun r => r ++ t) (toSplitAux b X)
  | [], b, h => by
      rw [h rfl]
      simp [extendLastText, toSplitAux, modifyLast]
  | [(false, r)], b, _ => by
      cases b <;> simp [extendLastText, toSplitAux, modifyLast]
  | [(true, r)], b, _ => by
      cases b <;> simp [extendLastText, toSplitAux, modifyLast]
  | (bx, r) :: y :: rest, b, _ => by
      have hcne : y :: rest ≠ [] := List.cons_ne_nil y rest
      have ihT := toSplitAux_extendLastText t (y :: rest) true (fun hc => absurd hc hcne)
      have ihF := toSplitAux_extendLastText t (y :: rest) false (fun hc => absurd hc hcne)
      have hneT : toSplitAux true (y :: rest) ≠ [] := toSplitAux_ne_nil _ _ _
      have hneF : toSplitAux false (y :: rest) ≠ [] := toSplitAux_ne_nil _ _ _
      cases b <;> cases bx
      · show r :: toSplitAux true (extendLastText t (y :: rest)) =
          modifyLast (fun r => r ++ t) (r :: toSplitAux true (y :: rest))
        rw [ihT, modifyLast_cons _ _ _ hneT]
      · show [] :: r :: toSplitAux false (extendLastText t (y :: rest)) =
          modifyLast (fun r => r ++ t) ([] :: r :: toSplitAux false (y :: rest))
        rw [ihF, modifyLast_cons _ _ _ (List.cons_ne_nil _ _), modifyLast_cons _ _ _ hneF]
      · show [] :: r :: toSplitAux true (extendLastText t (y :: rest)) =
          modifyLast (fun r => r ++ t) ([] :: r :: toSplitAux true (y :: rest))
        rw [ihT, modifyLast_cons _ _ _ (List.cons_ne_nil _ _), modifyLast_cons _ _ _ hneT]
      · show r :: toSplitAux false (extendLastText t (y :: rest)) =
          modifyLast (fun r => r ++ t) (r :: toSplitAux false (y :: rest))
        rw [ihF, modifyLast_cons _ _ _ hneF]
  termination_by X => X.length

lemma toSplitAux_length_parity :
    ∀ (X : List (Bool × List Char)),
      (toSplitAux true X).length % 2 = 0 ∧ (toSplitAux false X).length % 2 = 1
  | [] => by simp [toSplitAux]
  | (bx, r) :: rest => by
      have ih := toSplitAux_length_parity rest
      cases bx <;> simp [toSplitAux] <;> omega

lemma collectSentences_modifyLast (f : List Char → List Char) :
    ∀ (xs : List (List Char)), xs.length % 2 = 1 →
      collectSentences (modifyLast f xs) = collectSentences xs
  | [], h => by simp at h
  | [x], _ => by simp [modifyLast, collectSentences]
  | x :: y :: rest, h => by
      have hrest : rest.length % 2 = 1 := by
        simp only [List.length_cons] at h; omega
      have hrne : rest ≠ [] := by
        intro hc; rw [hc] at hrest; simp at hrest
      rw [modifyLast_cons _ _ _ (List.cons_ne_nil y rest),
        modifyLast_cons _ _ _ hrne]
      simp only [collectSentences]
      rw [collectSentences_modifyLast f rest hrest]

lemma formatSentencesChars_append_noPunct (cs t : List Char)
    (ht : ∀ c ∈ t, isSentencePunct c = false) :
    formatSentencesChars (cs ++ t) = formatSentencesChars cs := by
  rcases eq_or_ne t [] with rfl | htne
  · rw [List.append_nil]
  · unfold formatSentencesChars pySplitPunct
    rw [runsOf_append t htne ht cs,
      toSplitAux_extendLastText t (runsOf cs) false (fun _ => rfl),
      collectSentences_modifyLast _ _ (toSplitAux_length_parity (runsOf cs)).2]

lemma formatSentencesChars_noPunct (cs : List Char) (hne : cs ≠ [])
    (h : ∀ c ∈ cs, isSentencePunct c = false) :
    formatSentencesChars cs = [] := by
  unfold formatSentencesChars pySplitPunct
  rw [runsOf_noPunct cs hne h]
  rfl

lemma string_ne_empty_data (t : String) (h : t ≠ "") : t.data ≠ [] := by
  intro hc
  apply h
  cases t
  simp at hc
  rw [hc]

/-- Claim C10: `format_sentences` returns the empty string on any
non-empty input containing no sentence-ending punctuation, and appending
any punctuation-free tail to an input leaves the output unchanged (the
trailing text is dropped), so the emitted transcript can lose content. -/
theorem format_sentences_drops_unterminated_text :
    (∀ t : String, t ≠ "" → (∀ c ∈ t.data, isSentencePunct c = false) →
      format_sentences t = "") ∧
    (∀ s t : String, (∀ c ∈ t.data, isSentencePunct c = false) →
      format_sentences (s ++ t) = format_sentences s) := by
  constructor
  · intro t htne hp
    unfold format_sentences
    rw [formatSentencesChars_noPunct t.data (string_ne_empty_data t htne) hp]
  · intro s t hp
    unfold format_sentences
    rw [string_data_append, formatSentencesChars_append_noPunct s.data t.data hp]

/-- Witness for `format_sentences_drops_unterminated_text` at concrete
inputs: a wholly unpunctuated transcript formats to nothing, and an
unterminated tail after a sentence is dropped. -/
theorem format_sentences_drops_unterminated_text_witness :
    format_sentences "hello world" = "" ∧
    format_sentences ("Hi." ++ " this tail is lost") = format_sentences "Hi." :=
  ⟨format_sentences_drops_unterminated_text.1 "hello world" (by decide) (by decide),
    format_sentences_drops_unterminated_text.2 "Hi." " this tail is lost" (by decide)⟩

/- ---------------------------------------------------------------------- -/
/- Claim C2: remote cleanup under earlier-step failure.                   -/
/- ---------------------------------------------------------------------- -/

/-- An environment in which every shell command fails. -/
def allFailEnv : Env :=
  { fileExists := true, runOk := fun _ => false, anthropicKey := none,
    rawTranscript := "R", api := fun _ => none }

/-- Claim C2 counterexample: when the first staging copy fails, the job
returns its Failed verdict having issued only that one command; the
remote-cleanup command is never attempted. -/
theorem claim_c2_counterexample :
    transcribe_audio allFailEnv "h" "/a/x.m4a" "large" false false false none none none =
      ⟨false, [scriptCopyCmd "h"], []⟩ ∧
    cleanupCmd "h" "x.m4a" "x.txt" ∉
      (transcribe_audio allFailEnv "h" "/a/x.m4a" "large" false false false none none none).commands := by
  decide

/-- Claim C2 as amended: cleanup is not always attempted.  When any of the
four staged steps fails (script copy, audio copy, remote invocation or
transcript copy), the job surfaces Failed immediately, having issued
exactly the commands up to and including the failed one and no cleanup
command; the cleanup command is issued (and the verdict is success
regardless of the cleanup command's own exit status) only on runs in which
staging-in, invocation and staging-out all succeeded. -/
theorem claim_c2_cleanup_only_after_staging :
    (∀ (env : Env) (host path model : String) (cf sm fs : Bool)
        (od ip sp : Option String),
      path ≠ "" → env.fileExists = true →
      env.runOk (scriptCopyCmd host) = false →
      transcribe_audio env host path model cf sm fs od ip sp =
        ⟨false, [scriptCopyCmd host], []⟩) ∧
    (∀ (env : Env) (host path model : String) (cf sm fs : Bool)
        (od ip sp : Option String) (afn : String),
      afn = pathName path →
      path ≠ "" → env.fileExists = true →
      env.runOk (scriptCopyCmd host) = true →
      env.runOk (audioCopyCmd host path afn) = false →
      transcribe_audio env host path model cf sm fs od ip sp =
        ⟨false, [scriptCopyCmd host, audioCopyCmd host path afn], []⟩) ∧
    (∀ (env : Env) (host path model : String) (cf sm fs : Bool)
        (od ip sp : Option String) (afn tfn : String),
      afn = pathName path → tfn = pathStem path ++ ".txt" →
      path ≠ "" → env.fileExists = true →
      env.runOk (scriptCopyCmd host) = true →
      env.runOk (audioCopyCmd host path afn) = true →
      env.runOk (transcribeCmd host model ip afn tfn) = false →
      transcribe_audio env host path model cf sm fs od ip sp =
        ⟨false, [scriptCopyCmd host, audioCopyCmd host path afn,
          transcribeCmd host model ip afn tfn], []⟩) ∧
    (∀ (env : Env) (host path model : String) (cf sm fs : Bool)
        (od ip sp : Option String) (afn tfn outP : String),
      afn = pathName path → tfn = pathStem path ++ ".txt" →
      outP = od.getD (pathParent path) ++ "/" ++ tfn →
      path ≠ "" → env.fileExists = true →
      env.runOk (scriptCopyCmd host) = true →
      env.runOk (audioCopyCmd host path afn) = true →
      env.runOk (transcribeCmd host model ip afn tfn) = true →
      env.runOk (transcriptCopyCmd host tfn outP) = false →
      transcribe_audio env host path model cf sm fs od ip sp =
        ⟨false, [scriptCopyCmd host, audioCopyCmd host path afn,
          transcribeCmd host model ip afn tfn, transcriptCopyCmd host tfn outP], []⟩) ∧
    (∀ (env : Env) (host path model : String) (cf sm fs : Bool)
        (od ip sp : Option String) (afn tfn outP : String),
      afn = pathName path → tfn = pathStem path ++ ".txt" →
      outP = od.getD (pathParent path) ++ "/" ++ tfn →
      path ≠ "" → env.fileExists = true →
      env.runOk (scriptCopyCmd host) = true →
      env.runOk (audioCopyCmd host path afn) = true →
      env.runOk (transcribeCmd host model ip afn tfn) = true →
      env.runOk (transcriptCopyCmd host tfn outP) = true →
      (transcribe_audio env host path model cf sm fs od ip sp).success = true ∧
      (transcribe_audio env host path model cf sm fs od ip sp).commands =
        [scriptCopyCmd host, audioCopyCmd host path afn,
          transcribeCmd host model ip afn tfn, transcriptCopyCmd host tfn outP,
          cleanupCmd host afn tfn]) := by
  refine ⟨?_, ?_, ?_, ?_, ?_⟩
  · intro env host path model cf sm fs od ip sp hpath hfe h1
    simp [transcribe_audio, hpath, hfe, h1]
  · intro env host path model cf sm fs od ip sp afn hafn hpath hfe h1 h2
    subst hafn
    simp [transcribe_audio, hpath, hfe, h1, h2]
  · intro env host path model cf sm fs od ip sp afn tfn hafn htfn hpath hfe h1 h2 h3
    subst hafn htfn
    simp [transcribe_audio, hpath, hfe, h1, h2, h3]
  · intro env host path model cf sm fs od ip sp afn tfn outP hafn htfn houtP
      hpath hfe h1 h2 h3 h4
    subst hafn htfn houtP
    simp [transcribe_audio, hpath, hfe, h1, h2, h3, h4]
  · intro env host path model cf sm fs od ip sp afn tfn outP hafn htfn houtP
      hpath hfe h1 h2 h3 h4
    subst hafn htfn houtP
    simp [transcribe_audio, hpath, hfe, h1, h2, h3, h4]

/-- An environment in which every shell command succeeds except the one
given command. -/
def failAtEnv (cmd : String) : Env :=
  { fileExists := true,
    runOk := fun c => decide (c ≠ cmd),
    anthropicKey := none, rawTranscript := "R", api := fun _ => none }

/-- Witness for `claim_c2_cleanup_only_after_staging` at concrete inputs:
a failure at each of the four staged steps yields Failed with exactly the
commands issued so far and no cleanup, and with all four staged steps
succeeding the verdict is success with cleanup attempted last, even though
the cleanup command itself fails in this environment. -/
theorem claim_c2_witness :
    (transcribe_audio allFailEnv "h" "/b/y.m4a" "large" false false false none none none =
      ⟨false, [scriptCopyCmd "h"], []⟩) ∧
    (transcribe_audio (failAtEnv (audioCopyCmd "h" "/a/x.m4a" "x.m4a"))
        "h" "/a/x.m4a" "large" false false false none none none =
      ⟨false, [scriptCopyCmd "h", audioCopyCmd "h" "/a/x.m4a" "x.m4a"], []⟩) ∧
    (transcribe_audio (failAtEnv (transcribeCmd "h" "large" none "x.m4a" "x.txt"))
        "h" "/a/x.m4a" "large" false false false none none none =
      ⟨false, [scriptCopyCmd "h", audioCopyCmd "h" "/a/x.m4a" "x.m4a",
        transcribeCmd "h" "large" none "x.m4a" "x.txt"], []⟩) ∧
    (transcribe_audio (failAtEnv (transcriptCopyCmd "h" "x.txt" "/a/x.txt"))
        "h" "/a/x.m4a" "large" false false false none none none =
      ⟨false, [scriptCopyCmd "h", audioCopyCmd "h" "/a/x.m4a" "x.m4a",
        transcribeCmd "h" "large" none "x.m4a" "x.txt",
        transcriptCopyCmd "h" "x.txt" "/a/x.txt"], []⟩) ∧
    ((transcribe_audio (failAtEnv (cleanupCmd "h" "x.m4a" "x.txt"))
        "h" "/a/x.m4a" "large" false false false none none none).success = true ∧
      (transcribe_audio (failAtEnv (cleanupCmd "h" "x.m4a" "x.txt"))
        "h" "/a/x.m4a" "large" false false false none none none).commands =
        [scriptCopyCmd "h", audioCopyCmd "h" "/a/x.m4a" "x.m4a",
          transcribeCmd "h" "large" none "x.m4a" "x.txt",
          transcriptCopyCmd "h" "x.txt" "/a/x.txt",
          cleanupCmd "h" "x.m4a" "x.txt"]) :=
  ⟨claim_c2_cleanup_only_after_staging.1 allFailEnv "h" "/b/y.m4a" "large"
      false false false none none none (by decide) (by decide) (by decide),
    claim_c2_cleanup_only_after_staging.2.1
      (failAtEnv (audioCopyCmd "h" "/a/x.m4a" "x.m4a")) "h" "/a/x.m4a" "large"
      false false false none none none "x.m4a"
      (by decide) (by decide) (by decide) (by decide) (by decide),
    claim_c2_cleanup_only_after_staging.2.2.1
      (failAtEnv (transcribeCmd "h" "large" none "x.m4a" "x.txt")) "h" "/a/x.m4a" "large"
      false false false none none none "x.m4a" "x.txt"
      (by decide) (by decide) (by decide) (by decide) (by decide) (by decide) (by decide),
    claim_c2_cleanup_only_after_staging.2.2.2.1
      (failAtEnv (transcriptCopyCmd "h" "x.txt" "/a/x.txt")) "h" "/a/x.m4a" "large"
      false false false none none none "x.m4a" "x.txt" "/a/x.txt"
      (by decide) (by decide) (by decide) (by decide) (by decide)
      (by decide) (by decide) (by decide) (by decide),
    claim_c2_cleanup_only_after_staging.2.2.2.2
      (failAtEnv (cleanupCmd "h" "x.m4a" "x.txt")) "h" "/a/x.m4a" "large"
      false false false none none none "x.m4a" "x.txt" "/a/x.txt"
      (by decide) (by decide) (by decide) (by decide) (by decide)
      (by decide) (by decide) (by decide) (by decide)⟩

/- ---------------------------------------------------------------------- -/
/- Claim C7: missing Anthropic credential.                                -/
/- ---------------------------------------------------------------------- -/

/-- Claim C7 counterexample: with `ANTHROPIC_KEY` unset and the Clean
stage requested, the job does not fail and remote calls are made: it
succeeds, issues all five remote commands, and writes the raw transcript. -/
theorem claim_c7_counterexample :
    (transcribe_audio (happyEnv none "R" (fun _ => some "A")) "h" "/a/x.m4a" "large"
        true false false none none none).success = true ∧
    (transcribe_audio (happyEnv none "R" (fun _ => some "A")) "h" "/a/x.m4a" "large"
        true false false none none none).commands ≠ [] ∧
    (transcribe_audio (happyEnv none "R" (fun _ => some "A")) "h" "/a/x.m4a" "large"
        true false false none none none).artifacts = [("/a/x.txt", "R")] := by
  decide

/-- Claim C7 as amended: when an enhancement stage is requested but
`ANTHROPIC_KEY` is unset (or empty), the job does not raise a
configuration error: the remote transcription commands are all issued,
enhancement is skipped with a warning, and the job completes successfully
with only the raw transcript artifact. -/
theorem claim_c7_missing_key_skips_enhancement :
    ∀ (env : Env) (host path model : String) (cf sm fs : Bool)
      (od ip sp : Option String) (afn tfn outP : String),
      afn = pathName path → tfn = pathStem path ++ ".txt" →
      outP = od.getD (pathParent path) ++ "/" ++ tfn →
      path ≠ "" → env.fileExists = true →
      cf = true ∨ sm = true →
      env.anthropicKey.getD "" = "" →
      env.runOk (scriptCopyCmd host) = true →
      env.runOk (audioCopyCmd host path afn) = true →
      env.runOk (transcribeCmd host model ip afn tfn) = true →
      env.runOk (transcriptCopyCmd host tfn outP) = true →
      transcribe_audio env host path model cf sm fs od ip sp =
        ⟨true,
          [scriptCopyCmd host, audioCopyCmd host path afn,
            transcribeCmd host model ip afn tfn, transcriptCopyCmd host tfn outP,
            cleanupCmd host afn tfn],
          [(outP, env.rawTranscript)]⟩ := by
  intro env host path model cf sm fs od ip sp afn tfn outP hafn htfn houtP
    hpath hfe hreq hkey h1 h2 h3 h4
  subst hafn htfn houtP
  rcases hreq with hc | hs
  · subst hc
    simp [transcribe_audio, hpath, hfe, hkey, h1, h2, h3, h4]
  · subst hs
    simp [transcribe_audio, hpath, hfe, hkey, h1, h2, h3, h4]

/-- Witness for `claim_c7_missing_key_skips_enhancement` at a concrete
run with the Clean stage requested and no key in the environment. -/
theorem claim_c7_witness :
    transcribe_audio (happyEnv none "R" (fun _ => some "A")) "h" "/b/y.m4a" "large"
        true false false none none none =
      ⟨true,
        [scriptCopyCmd "h", audioCopyCmd "h" "/b/y.m4a" "y.m4a",
          transcribeCmd "h" "large" none "y.m4a" "y.txt",
          transcriptCopyCmd "h" "y.txt" "/b/y.txt", cleanupCmd "h" "y.m4a" "y.txt"],
        [("/b/y.txt", "R")]⟩ :=
  claim_c7_missing_key_skips_enhancement (happyEnv none "R" (fun _ => some "A"))
    "h" "/b/y.m4a" "large" true false false none none none "y.m4a" "y.txt" "/b/y.txt"
    (by decide) (by decide) (by decide) (by decide) (by decide) (Or.inl rfl)
    (by decide) (by decide) (by decide) (by decide) (by decide)

/- ---------------------------------------------------------------------- -/
/- Claim C1: model-name validation.                                       -/
/- ---------------------------------------------------------------------- -/

/-- Claim C1 counterexample: the model name "turbo" is outside the
enumerated supported set, yet the job issues its remote copy and ssh
commands and completes successfully; no configuration error precedes the
remote calls. -/
theorem claim_c1_counterexample :
    "turbo" ∉ SUPPORTED_MODELS ∧
    (transcribe_audio (happyEnv none "R" (fun _ => some "A")) "h" "/a/x.m4a" "turbo"
        false false false none none none).success = true ∧
    (transcribe_audio (happyEnv none "R" (fun _ => some "A")) "h" "/a/x.m4a" "turbo"
        false false false none none none).commands =
      [scriptCopyCmd "h", audioCopyCmd "h" "/a/x.m4a" "x.m4a",
        transcribeCmd "h" "turbo" none "x.m4a" "x.txt",
        transcriptCopyCmd "h" "x.txt" "/a/x.txt", cleanupCmd "h" "x.m4a" "x.txt"] := by
  decide

/-- Claim C1 as amended: model names are validated only on the remote
side: `AudioTranscriber.__init__` rejects every name outside
`SUPPORTED_MODELS` before loading a model, and the interactive menu even
offers such a name; the local orchestrator performs no model validation,
so for any model name whatsoever its first action is the remote script
copy, before any validation can happen. -/
theorem claim_c1_model_validation_is_remote_only :
    (∀ m : String, m ∉ SUPPORTED_MODELS →
      audioTranscriberInit m = Except.error "Model must be one of SUPPORTED_MODELS") ∧
    (∃ m, m ∈ selectModelChoices ∧ m ∉ SUPPORTED_MODELS) ∧
    (∀ (env : Env) (host path model : String) (cf sm fs : Bool)
        (od ip sp : Option String),
      path ≠ "" → env.fileExists = true →
      (transcribe_audio env host path model cf sm fs od ip sp).commands.head? =
        some (scriptCopyCmd host)) := by
  refine ⟨?_, ⟨"turbo", by decide, by decide⟩, ?_⟩
  · intro m hm
    unfold audioTranscriberInit
    rw [if_neg hm]
  · intro env host path model cf sm fs od ip sp hpath hfe
    by_cases h1 : env.runOk (scriptCopyCmd host)
    · by_cases h2 : env.runOk (audioCopyCmd host path (pathName path))
      · by_cases h3 : env.runOk (transcribeCmd host model ip (pathName path)
            (pathStem path ++ ".txt"))
        · by_cases h4 : env.runOk (transcriptCopyCmd host (pathStem path ++ ".txt")
              (od.getD (pathParent path) ++ "/" ++ (pathStem path ++ ".txt")))
          · simp [transcribe_audio, hpath, hfe, h1, h2, h3, h4]
          · simp [transcribe_audio, hpath, hfe, h1, h2, h3, h4]
        · simp [transcribe_audio, hpath, hfe, h1, h2, h3]
      · simp [transcribe_audio, hpath, hfe, h1, h2]
    · simp [transcribe_audio, hpath, hfe, h1]

/-- Witness for `claim_c1_model_validation_is_remote_only` at the concrete
out-of-set model name "turbo" and a concrete run. -/
theorem claim_c1_witness :
    audioTranscriberInit "turbo" =
      Except.error "Model must be one of SUPPORTED_MODELS" ∧
    (transcribe_audio (happyEnv none "R" (fun _ => some "A")) "h" "/b/y.m4a" "turbo"
        false false false none none none).commands.head? = some (scriptCopyCmd "h") :=
  ⟨claim_c1_model_validation_is_remote_only.1 "turbo" (by decide),
    claim_c1_model_validation_is_remote_only.2.2 (happyEnv none "R" (fun _ => some "A"))
      "h" "/b/y.m4a" "turbo" false false false none none none (by decide) (by decide)⟩

/- ---------------------------------------------------------------------- -/
/- Claim C3: the artifact set per flag combination.                       -/
/- ---------------------------------------------------------------------- -/

/-- Claim C3 counterexample: with Clean and Slack formatting enabled but
Summarize disabled (key present, every call succeeding), the artifact
paths are raw, cleaned and cleaned_slack; the cleaned artifact is not in
the claimed two-element set. -/
theorem claim_c3_counterexample :
    (transcribe_audio (happyEnv (some "k") "R" (fun _ => some "A")) "h" "/a/x.m4a" "large"
        true false true none none none).artifacts.map Prod.fst =
      ["/a/x.txt", "/a/x_cleaned.txt", "/a/x_cleaned_slack.txt"] ∧
    "/a/x_cleaned.txt" ∉ (["/a/x.txt", "/a/x_cleaned_slack.txt"] : List String) := by
  decide

/-- The artifact-path table the code actually implements, as a function of
the three stage flags (on a run where the key is present and every command
and every API call succeeds): raw always; cleaned whenever Clean or
Summarize is enabled; summary whenever Summarize is enabled; a Slack file
only when Slack formatting is requested together with Clean or Summarize,
named summary_slack when Summarize is enabled and cleaned_slack otherwise. -/
def expectedArtifactPaths (cf sm fs : Bool) (outP cleanedP sumP ssP csP : String) :
    List String :=
  if cf ∨ sm then
    [outP, cleanedP] ++ (if sm then [sumP] else []) ++
      (if fs then [if sm then ssP else csP] else [])
  else [outP]

/-- Claim C3 as amended: on fully successful runs the artifact-path list
is exactly determined by the three stage flags, per
`expectedArtifactPaths`; in particular Clean plus Slack without Summarize
yields raw, cleaned and cleaned_slack (not raw and cleaned_slack only),
and Slack alone yields only raw. -/
theorem claim_c3_artifact_table :
    ∀ (env : Env) (host path model : String) (cf sm fs : Bool)
      (od ip sp : Option String) (f : String → String) (afn tfn outP : String),
      afn = pathName path → tfn = pathStem path ++ ".txt" →
      outP = od.getD (pathParent path) ++ "/" ++ tfn →
      path ≠ "" → env.fileExists = true →
      env.anthropicKey.getD "" ≠ "" →
      env.api = (fun p => some (f p)) →
      env.runOk (scriptCopyCmd host) = true →
      env.runOk (audioCopyCmd host path afn) = true →
      env.runOk (transcribeCmd host model ip afn tfn) = true →
      env.runOk (transcriptCopyCmd host tfn outP) = true →
      (transcribe_audio env host path model cf sm fs od ip sp).artifacts.map Prod.fst =
        expectedArtifactPaths cf sm fs outP (derivedPath outP "_cleaned")
          (derivedPath outP "_summary") (derivedPath outP "_summary_slack")
          (derivedPath outP "_cleaned_slack") := by
  intro env host path model cf sm fs od ip sp f afn tfn outP hafn htfn houtP
    hpath hfe hkey hapi h1 h2 h3 h4
  subst hafn htfn houtP
  cases cf <;> cases sm <;> cases fs <;>
    simp [transcribe_audio, enhanceTranscript, clean_transcript, expectedArtifactPaths,
      hpath, hfe, hkey, hapi, h1, h2, h3, h4]

/-- Witness for `claim_c3_artifact_table` at a concrete run with Summarize
and Slack enabled but Clean disabled. -/
theorem claim_c3_witness :
    (transcribe_audio (happyEnv (some "k") "R" (fun _ => some "A")) "h" "/a/x.m4a" "large"
        false true true none none none).artifacts.map Prod.fst =
      expectedArtifactPaths false true true "/a/x.txt"
        (derivedPath "/a/x.txt" "_cleaned") (derivedPath "/a/x.txt" "_summary")
        (derivedPath "/a/x.txt" "_summary_slack") (derivedPath "/a/x.txt" "_cleaned_slack") :=
  claim_c3_artifact_table (happyEnv (some "k") "R" (fun _ => some "A")) "h" "/a/x.m4a"
    "large" false true true none none none (fun _ => "A") "x.m4a" "x.txt" "/a/x.txt"
    (by decide) (by decide) (by decide) (by decide) (by decide) (by decide) rfl
    (by decide) (by decide) (by decide) (by decide)

/- ---------------------------------------------------------------------- -/
/- Claim C4: when the summary_slack artifact exists.                      -/
/- ---------------------------------------------------------------------- -/

/-- An API behaviour for which the summarize call fails while the clean
and Slack-format calls succeed: it answers `none` exactly on the summary
prompt built from the custom summary instruction "S" over the cleaned
text "C", and "C" otherwise. -/
def summaryFailApi : String → Option String :=
  fun p => if p = "S" ++ transcriptHeader ++ "C" then none else some "C"

/-- Claim C4 counterexample: with Summarize and Slack enabled, a present
key, a failing summarize call and a succeeding Slack-format call, the
summary_slack artifact is written even though the summarize refinement did
not succeed (no summary artifact exists and the summary call returned
nothing). -/
theorem claim_c4_counterexample :
    "/a/x_summary_slack.txt" ∈
      (transcribe_audio (happyEnv (some "k") "R" summaryFailApi) "h" "/a/x.m4a" "large"
          true true true none none (some "S")).artifacts.map Prod.fst ∧
    "/a/x_summary.txt" ∉
      (transcribe_audio (happyEnv (some "k") "R" summaryFailApi) "h" "/a/x.m4a" "large"
          true true true none none (some "S")).artifacts.map Prod.fst ∧
    summaryFailApi (buildPrompt "summary" false (some "S") "C") = none := by
  decide

lemma enhance_slackpath_mem (api : String → Option String) (cf sm fs : Bool)
    (sp : Option String) (cleanedP sumP ssP csP raw : String)
    (hd2 : ssP ≠ cleanedP) (hd3 : ssP ≠ sumP) (hd4 : ssP ≠ csP) :
    ssP ∈ (enhanceTranscript api cf sm fs sp cleanedP sumP ssP csP raw).map Prod.fst →
    sm = true ∧ fs = true ∧
      ∃ cur out, api (buildPrompt "clean" true none cur) = some out := by
  cases sm with
  | true =>
      cases fs with
      | true =>
          intro hmem
          refine ⟨rfl, rfl, ?_⟩
          simp only [enhanceTranscript, clean_transcript, or_true, if_true,
            if_pos, ite_true] at hmem
          cases h1 : api (buildPrompt "clean" false none raw) with
          | none =>
              rw [h1] at hmem
              cases h2 : api (buildPrompt "summary" false sp raw) with
              | none =>
                  rw [h2] at hmem
                  cases h3 : api (buildPrompt "clean" true none raw) with
                  | none => rw [h3] at hmem; simp at hmem
                  | some t => exact ⟨raw, t, h3⟩
              | some s =>
                  rw [h2] at hmem
                  cases h3 : api (buildPrompt "clean" true none s) with
                  | none =>
                      rw [h3] at hmem; simp at hmem
                      exact absurd hmem hd3
                  | some t => exact ⟨s, t, h3⟩
          | some c =>
              rw [h1] at hmem
              cases h2 : api (buildPrompt "summary" false sp c) with
              | none =>
                  rw [h2] at hmem
                  cases h3 : api (buildPrompt "clean" true none c) with
                  | none =>
                      rw [h3] at hmem; simp at hmem
                      exact absurd hmem hd2
                  | some t => exact ⟨c, t, h3⟩
              | some s =>
                  rw [h2] at hmem
                  cases h3 : api (buildPrompt "clean" true none s) with
                  | none =>
                      rw [h3] at hmem; simp at hmem
                      rcases hmem with hmem | hmem
                      · exact absurd hmem hd2
                      · exact absurd hmem hd3
                  | some t => exact ⟨s, t, h3⟩
      | false =>
          intro hmem
          exfalso
          simp only [enhanceTranscript, clean_transcript, or_true, if_true,
            if_pos, Bool.false_eq_true, if_false] at hmem
          cases h1 : api (buildPrompt "clean" false none raw) with
          | none =>
              rw [h1] at hmem
              cases h2 : api (buildPrompt "summary" false sp raw) with
              | none => rw [h2] at hmem; simp at hmem
              | some t => rw [h2] at hmem; simp at hmem; exact hd3 hmem
          | some c =>
              rw [h1] at hmem
              cases h2 : api (buildPrompt "summary" false sp c) with
              | none => rw [h2] at hmem; simp at hmem; exact hd2 hmem
              | some t =>
                  rw [h2] at hmem; simp at hmem
                  rcases hmem with hmem | hmem
                  · exact hd2 hmem
                  · exact hd3 hmem
  | false =>
      intro hmem
      exfalso
      cases cf with
      | false =>
          simp only [enhanceTranscript, clean_transcript, Bool.false_eq_true, or_self,
            if_false] at hmem
          cases fs with
          | false => simp at hmem
          | true =>
              cases h3 : api (buildPrompt "clean" true none raw) with
              | none => rw [h3] at hmem; simp at hmem
              | some t => rw [h3] at hmem; simp at hmem; exact hd4 hmem
      | true =>
          simp only [enhanceTranscript, clean_transcript, true_or, if_true,
            Bool.false_eq_true, if_false] at hmem
          cases h1 : api (buildPrompt "clean" false none raw) with
          | none =>
              rw [h1] at hmem
              cases fs with
              | false => simp at hmem
              | true =>
                  cases h3 : api (buildPrompt "clean" true none raw) with
                  | none => rw [h3] at hmem; simp at hmem
                  | some t => rw [h3] at hmem; simp at hmem; exact hd4 hmem
          | some c =>
              rw [h1] at hmem
              cases fs with
              | false => simp at hmem; exact hd2 hmem
              | true =>
                  cases h3 : api (buildPrompt "clean" true none c) with
                  | none => rw [h3] at hmem; simp at hmem; exact hd2 hmem
                  | some t =>
                      rw [h3] at hmem; simp at hmem
                      rcases hmem with hmem | hmem
                      · exact hd2 hmem
                      · exact hd4 hmem

/-- Claim C4 as amended: the summary_slack artifact exists only if both
Summarize and Slack formatting are enabled and the Slack-format call
itself succeeded (on some current text); success of the summarize
refinement call is not required for it. -/
theorem claim_c4_summary_slack_needs_flags_only :
    ∀ (env : Env) (host path model : String) (cf sm fs : Bool)
      (od ip sp : Option String) (outP : String),
      outP = od.getD (pathParent path) ++ "/" ++ (pathStem path ++ ".txt") →
      derivedPath outP "_summary_slack" ≠ outP →
      derivedPath outP "_summary_slack" ≠ derivedPath outP "_cleaned" →
      derivedPath outP "_summary_slack" ≠ derivedPath outP "_summary" →
      derivedPath outP "_summary_slack" ≠ derivedPath outP "_cleaned_slack" →
      derivedPath outP "_summary_slack" ∈
        (transcribe_audio env host path model cf sm fs od ip sp).artifacts.map Prod.fst →
      sm = true ∧ fs = true ∧
        ∃ cur out, env.api (buildPrompt "clean" true none cur) = some out := by
  intro env host path model cf sm fs od ip sp outP houtP hd1 hd2 hd3 hd4 hmem
  by_cases hpath : path = ""
  · rw [transcribe_audio, if_pos hpath] at hmem
    simp at hmem
  · rw [transcribe_audio, if_neg hpath] at hmem
    by_cases hfe : env.fileExists = true
    · rw [if_neg (by rw [hfe]; exact not_not_intro rfl)] at hmem
      by_cases h1 : env.runOk (scriptCopyCmd host) = true
      · rw [if_neg (by rw [h1]; exact not_not_intro rfl)] at hmem
        by_cases h2 : env.runOk (audioCopyCmd host path (pathName path)) = true
        · rw [if_neg (by rw [h2]; exact not_not_intro rfl)] at hmem
          by_cases h3 : env.runOk (transcribeCmd host model ip (pathName path)
              (pathStem path ++ ".txt")) = true
          · rw [if_neg (by rw [h3]; exact not_not_intro rfl)] at hmem
            by_cases h4 : env.runOk (transcriptCopyCmd host (pathStem path ++ ".txt")
                (od.getD (pathParent path) ++ "/" ++ (pathStem path ++ ".txt"))) = true
            · rw [if_neg (by rw [h4]; exact not_not_intro rfl)] at hmem
              simp only [List.map_cons, List.mem_cons] at hmem
              rcases hmem with hmem | hmem
              · rw [← houtP] at hmem
                exact absurd hmem hd1
              · by_cases hflags : cf = true ∨ sm = true
                · rw [if_pos hflags] at hmem
                  by_cases hkey : env.anthropicKey.getD "" = ""
                  · rw [if_pos hkey] at hmem
                    simp at hmem
                  · rw [if_neg hkey] at hmem
                    rw [← houtP] at hmem
                    exact enhance_slackpath_mem env.api cf sm fs sp _ _ _ _
                      env.rawTranscript hd2 hd3 hd4 hmem
                · rw [if_neg hflags] at hmem
                  simp at hmem
            · rw [if_pos (by rw [Bool.not_eq_true] at h4; rw [h4]; exact
                Bool.false_ne_true)] at hmem
              simp at hmem
          · rw [if_pos (by rw [Bool.not_eq_true] at h3; rw [h3]; exact
              Bool.false_ne_true)] at hmem
            simp at hmem
        · rw [if_pos (by rw [Bool.not_eq_true] at h2; rw [h2]; exact
            Bool.false_ne_true)] at hmem
          simp at hmem
      · rw [if_pos (by rw [Bool.not_eq_true] at h1; rw [h1]; exact
          Bool.false_ne_true)] at hmem
        simp at hmem
    · rw [if_pos (by rw [Bool.not_eq_true] at hfe; rw [hfe]; exact
        Bool.false_ne_true)] at hmem
      simp at hmem

/-- Witness for `claim_c4_summary_slack_needs_flags_only` at the concrete
run of the C4 environment, where the summary_slack artifact is written and
the Slack-format call succeeded. -/
theorem claim_c4_witness :
    (true = true ∧ true = true ∧
      ∃ cur out, summaryFailApi (buildPrompt "clean" true none cur) = some out) :=
  claim_c4_summary_slack_needs_flags_only
    (happyEnv (some "k") "R" summaryFailApi) "h" "/a/x.m4a" "large"
    true true true none none (some "S") "/a/x.txt"
    (by decide) (by decide) (by decide) (by decide) (by decide) (by decide)

/- ---------------------------------------------------------------------- -/
/- Claim C5: all-stages-disabled runs and the raw artifact content.       -/
/- ---------------------------------------------------------------------- -/

/-- Claim C5 counterexample: with all stages disabled and the black-box
transcription text "hello world", the single raw artifact holds a bare
newline (the sentence formatter dropped everything), not the stripped
transcription text. -/
theorem claim_c5_counterexample :
    (transcribe_audio (happyEnv none (whisperMainOutput "hello world") (fun _ => none))
        "h" "/a/x.m4a" "large" false false false none none none).artifacts =
      [("/a/x.txt", "\n")] ∧
    stripString "hello world" = "hello world" ∧
    ("\n" : String) ≠ "hello world" := by
  decide

/-- Claim C5 as amended: with all enhancement stages disabled a successful
run produces exactly the raw transcript artifact, whose content is the
remote transcript file verbatim; that file holds the sentence-formatted
stripped transcription text plus a trailing newline, and when the stripped
text is non-empty with no sentence punctuation the file content is just a
newline rather than the stripped text. -/
theorem claim_c5_all_disabled_raw_only :
    (∀ (env : Env) (host path model : String) (od ip sp : Option String)
        (afn tfn outP : String),
      afn = pathName path → tfn = pathStem path ++ ".txt" →
      outP = od.getD (pathParent path) ++ "/" ++ tfn →
      path ≠ "" → env.fileExists = true →
      env.runOk (scriptCopyCmd host) = true →
      env.runOk (audioCopyCmd host path afn) = true →
      env.runOk (transcribeCmd host model ip afn tfn) = true →
      env.runOk (transcriptCopyCmd host tfn outP) = true →
      transcribe_audio env host path model false false false od ip sp =
        ⟨true,
          [scriptCopyCmd host, audioCopyCmd host path afn,
            transcribeCmd host model ip afn tfn, transcriptCopyCmd host tfn outP,
            cleanupCmd host afn tfn],
          [(outP, env.rawTranscript)]⟩) ∧
    (∀ t : String, (stripString t).data ≠ [] →
      (∀ c ∈ (stripString t).data, isSentencePunct c = false) →
      whisperMainOutput t = "\n") := by
  constructor
  · intro env host path model od ip sp afn tfn outP hafn htfn houtP hpath hfe h1 h2 h3 h4
    subst hafn htfn houtP
    simp [transcribe_audio, hpath, hfe, h1, h2, h3, h4]
  · intro t hne hp
    unfold whisperMainOutput format_sentences
    rw [formatSentencesChars_noPunct (stripString t).data hne hp]
    rfl

/-- Witness for `claim_c5_all_disabled_raw_only` at a concrete run and at
the concrete unpunctuated transcription text "hello world". -/
theorem claim_c5_witness :
    transcribe_audio (happyEnv none "R" (fun _ => none)) "h" "/b/y.m4a" "large"
        false false false none none none =
      ⟨true,
        [scriptCopyCmd "h", audioCopyCmd "h" "/b/y.m4a" "y.m4a",
          transcribeCmd "h" "large" none "y.m4a" "y.txt",
          transcriptCopyCmd "h" "y.txt" "/b/y.txt", cleanupCmd "h" "y.m4a" "y.txt"],
        [("/b/y.txt", "R")]⟩ ∧
    whisperMainOutput "hello world" = "\n" :=
  ⟨claim_c5_all_disabled_raw_only.1 (happyEnv none "R" (fun _ => none)) "h" "/b/y.m4a"
      "large" none none none "y.m4a" "y.txt" "/b/y.txt"
      (by decide) (by decide) (by decide) (by decide) (by decide)
      (by decide) (by decide) (by decide) (by decide),
    claim_c5_all_disabled_raw_only.2 "hello world" (by decide) (by decide)⟩

/- ---------------------------------------------------------------------- -/
/- Claim C6: Clean-stage failure falls back to the raw transcript.        -/
/- ---------------------------------------------------------------------- -/

/-- Claim C6: in every run in which the Clean refinement call fails while
Summarize is enabled (Slack formatting on or off), no cleaned artifact is
written and the summarize call is made on the raw transcript text: the
artifact list is the raw artifact, then the summary artifact built from
the prompt over the raw text (when that call succeeds), then, when Slack
formatting is enabled, the summary_slack artifact from the Slack call over
the then-current text. -/
theorem claim_c6_clean_failure_fallback :
    ∀ (env : Env) (host path model : String) (cf fs : Bool)
      (od ip sp : Option String) (afn tfn outP : String),
      afn = pathName path → tfn = pathStem path ++ ".txt" →
      outP = od.getD (pathParent path) ++ "/" ++ tfn →
      path ≠ "" → env.fileExists = true →
      env.runOk (scriptCopyCmd host) = true →
      env.runOk (audioCopyCmd host path afn) = true →
      env.runOk (transcribeCmd host model ip afn tfn) = true →
      env.runOk (transcriptCopyCmd host tfn outP) = true →
      env.anthropicKey.getD "" ≠ "" →
      env.api (buildPrompt "clean" false none env.rawTranscript) = none →
      derivedPath outP "_cleaned" ≠ outP →
      derivedPath outP "_cleaned" ≠ derivedPath outP "_summary" →
      derivedPath outP "_cleaned" ≠ derivedPath outP "_summary_slack" →
      (transcribe_audio env host path model cf true fs od ip sp).artifacts =
        ((outP, env.rawTranscript) ::
          ((match env.api (buildPrompt "summary" false sp env.rawTranscript) with
            | some s => [(derivedPath outP "_summary", s)]
            | none => []) ++
          (if fs then
            (match env.api (buildPrompt "clean" true none
                (match env.api (buildPrompt "summary" false sp env.rawTranscript) with
                  | some s => s
                  | none => env.rawTranscript)) with
              | some t => [(derivedPath outP "_summary_slack", t)]
              | none => [])
          else []))) ∧
      (∀ c : String,
        (derivedPath outP "_cleaned", c) ∉
          (transcribe_audio env host path model cf true fs od ip sp).artifacts) := by
  intro env host path model cf fs od ip sp afn tfn outP hafn htfn houtP hpath hfe
    h1 h2 h3 h4 hkey hclean hd1 hd2 hd3
  subst hafn htfn houtP
  have harts :
      (transcribe_audio env host path model cf true fs od ip sp).artifacts =
        ((od.getD (pathParent path) ++ "/" ++ (pathStem path ++ ".txt"), env.rawTranscript) ::
          ((match env.api (buildPrompt "summary" false sp env.rawTranscript) with
            | some s =>
                [(derivedPath (od.getD (pathParent path) ++ "/" ++ (pathStem path ++ ".txt"))
                    "_summary", s)]
            | none => []) ++
          (if fs then
            (match env.api (buildPrompt "clean" true none
                (match env.api (buildPrompt "summary" false sp env.rawTranscript) with
                  | some s => s
                  | none => env.rawTranscript)) with
              | some t =>
                  [(derivedPath (od.getD (pathParent path) ++ "/" ++ (pathStem path ++ ".txt"))
                      "_summary_slack", t)]
              | none => [])
          else []))) := by
    simp only [transcribe_audio, enhanceTranscript, clean_transcript]
    simp only [hpath, hfe, h1, h2, h3, h4, hkey, hclean, if_neg, if_pos, or_true,
      ite_true, ite_false, not_false_iff, not_true, Bool.true_eq_false]
    simp [hclean]
    cases h5 : env.api (buildPrompt "summary" false sp env.rawTranscript) with
    | none =>
        simp only [h5]
        cases fs with
        | false => simp
        | true =>
            cases h6 : env.api (buildPrompt "clean" true none env.rawTranscript) <;>
              simp [h6]
    | some s =>
        simp only [h5]
        cases fs with
        | false => simp
        | true =>
            cases h6 : env.api (buildPrompt "clean" true none s) <;> simp [h6]
  refine ⟨harts, ?_⟩
  intro c hc
  rw [harts] at hc
  cases h5 : env.api (buildPrompt "summary" false sp env.rawTranscript) with
  | none =>
      rw [h5] at hc
      cases fs with
      | false =>
          simp at hc
          exact hd1 hc.1
      | true =>
          cases h6 : env.api (buildPrompt "clean" true none env.rawTranscript) with
          | none =>
              rw [h6] at hc
              simp at hc
              exact hd1 hc.1
          | some t =>
              rw [h6] at hc
              simp at hc
              rcases hc with hc | hc
              · exact hd1 hc.1
              · exact hd3 hc.1
  | some s =>
      rw [h5] at hc
      cases fs with
      | false =>
          simp at hc
          rcases hc with hc | hc
          · exact hd1 hc.1
          · exact hd2 hc.1
      | true =>
          cases h6 : env.api (buildPrompt "clean" true none s) with
          | none =>
              rw [h6] at hc
              simp at hc
              rcases hc with hc | hc
              · exact hd1 hc.1
              · exact hd2 hc.1
          | some t =>
              rw [h6] at hc
              simp at hc
              rcases hc with hc | hc | hc
              · exact hd1 hc.1
              · exact hd2 hc.1
              · exact hd3 hc.1

/-- An API behaviour whose clean call fails while every other call (the
summary call over the raw text, the Slack call over its output) succeeds. -/
def cleanFailApi : String → Option String :=
  fun p => if p = buildPrompt "clean" false none "R" then none else some "S"

/-- Witness for `claim_c6_clean_failure_fallback` at a concrete run with
Slack formatting enabled: the clean call fails, the summary succeeds on
the raw text, the Slack call succeeds on the summary output, and the
artifacts are exactly raw, summary, summary_slack with no cleaned file. -/
theorem claim_c6_witness :
    ((transcribe_audio (happyEnv (some "k") "R" cleanFailApi) "h" "/a/x.m4a" "large"
        true true true none none none).artifacts =
      [("/a/x.txt", "R"), (derivedPath "/a/x.txt" "_summary", "S"),
        (derivedPath "/a/x.txt" "_summary_slack", "S")]) ∧
    (∀ c : String,
      (derivedPath "/a/x.txt" "_cleaned", c) ∉
        (transcribe_audio (happyEnv (some "k") "R" cleanFailApi) "h" "/a/x.m4a" "large"
            true true true none none none).artifacts) := by
  have h := claim_c6_clean_failure_fallback (happyEnv (some "k") "R" cleanFailApi)
    "h" "/a/x.m4a" "large" true true none none none "x.m4a" "x.txt" "/a/x.txt"
    (by decide) (by decide) (by decide) (by decide) (by decide)
    (by decide) (by decide) (by decide) (by decide) (by decide) (by decide)
    (by decide) (by decide) (by decide)
  refine ⟨?_, h.2⟩
  rw [h.1]
  decide

/- ---------------------------------------------------------------------- -/
/- Claim C8: shell escaping of embedded values.                           -/
/- ---------------------------------------------------------------------- -/

lemma string_append_assoc (a b c : String) : a ++ b ++ c = a ++ (b ++ c) := by
  cases a; cases b; cases c
  show String.mk _ = String.mk _
  simp [String.append, List.append_assoc]

lemma infix_of_middle (a b c : String) : b.data <:+: (a ++ b ++ c).data :=
  ⟨a.data, c.data, by rw [string_data_append, string_data_append]⟩

/-- Claim C8 counterexample: the script-copy command handed to the shell
is the first command of a run against host "a b"; it embeds the host
verbatim, and the shell-quoted form of the host does not occur in it. -/
theorem claim_c8_counterexample :
    (transcribe_audio (happyEnv none "R" (fun _ => some "A")) "a b" "/a/x.m4a" "large"
        false false false none none none).commands.head? = some (scriptCopyCmd "a b") ∧
    "a b".data <:+: (scriptCopyCmd "a b").data ∧
    ¬ (shlexQuote "a b").data <:+: (scriptCopyCmd "a b").data := by
  refine ⟨by decide, ⟨"scp whisper_transcribe.py ".data, ":~/whisper_transcribe.py".data, by decide⟩, ?_⟩
  decide

/-- Claim C8 as amended: only the initial prompt and the remote file paths
are shlex-escaped, inside the remote command line; the host is
concatenated into the scp/ssh command lines without any escaping, so for
any host containing a shell-unsafe character (and no single quote) its
shell-escaped form does not occur in the script-copy command that embeds
it. -/
theorem claim_c8_escaping_incomplete :
    (∀ (model p afn tfn : String), p ≠ "" →
      (shlexQuote p).data <:+: (remoteCmd model (some p) afn tfn).data) ∧
    (∀ (model : String) (ip : Option String) (afn tfn : String),
      (shlexQuote ("/tmp/" ++ afn)).data <:+: (remoteCmd model ip afn tfn).data) ∧
    (∀ host : String, squoteChar ∉ host.data →
      (∃ c ∈ host.data, isShlexSafe c = false) →
      ¬ (shlexQuote host).data <:+: (scriptCopyCmd host).data) := by
  refine ⟨?_, ?_, ?_⟩
  · intro model p afn tfn hp
    have hcmd : remoteCmd model (some p) afn tfn =
        ((".local/bin/uv run whisper_transcribe.py" ++ " --model " ++ model ++
            " --language en" ++ " --verbose") ++ " --prompt ") ++ shlexQuote p ++
          (" " ++ shlexQuote ("/tmp/" ++ afn) ++ " > " ++ shlexQuote ("/tmp/" ++ tfn)) := by
      simp only [remoteCmd, Option.getD_some, if_neg hp]
      simp [string_append_assoc]
    rw [hcmd]
    exact infix_of_middle _ _ _
  · intro model ip afn tfn
    have hcmd : remoteCmd model ip afn tfn =
        ((if ip.getD "" = ""
            then (".local/bin/uv run whisper_transcribe.py" ++ " --model " ++ model ++
              " --language en" ++ " --verbose")
            else (".local/bin/uv run whisper_transcribe.py" ++ " --model " ++ model ++
              " --language en" ++ " --verbose") ++ " --prompt " ++ shlexQuote (ip.getD ""))
          ++ " ") ++ shlexQuote ("/tmp/" ++ afn) ++
          (" > " ++ shlexQuote ("/tmp/" ++ tfn)) := by
      simp only [remoteCmd]
      simp [string_append_assoc]
    rw [hcmd]
    exact infix_of_middle _ _ _
  · intro host hnq hunsafe hinf
    have hostne : host ≠ "" := by
      intro h
      rcases hunsafe with ⟨c, hc, _⟩
      rw [h] at hc
      simp at hc
    have hall : ¬ host.data.all isShlexSafe = true := by
      intro hall
      rcases hunsafe with ⟨c, hc, hcsafe⟩
      have := List.all_eq_true.mp hall c hc
      rw [hcsafe] at this
      exact Bool.false_ne_true this
    have hq : (shlexQuote host).data =
        squoteChar :: (String.mk (host.data.flatMap shlexEscChar)).data ++ squote.data := by
      unfold shlexQuote
      rw [if_neg hostne, if_neg hall]
      rw [string_data_append, string_data_append]
      rfl
    have hmem : squoteChar ∈ (shlexQuote host).data := by
      rw [hq]
      exact List.mem_cons_self _ _
    have hmem2 : squoteChar ∈ (scriptCopyCmd host).data := hinf.subset hmem
    unfold scriptCopyCmd at hmem2
    rw [string_data_append, string_data_append] at hmem2
    rcases List.mem_append.mp hmem2 with h12 | h3
    · rcases List.mem_append.mp h12 with h1 | h2
      · revert h1; decide
      · exact hnq h2
    · revert h3; decide

/-- Witness for `claim_c8_escaping_incomplete` at concrete values: the
quoted prompt "a b" occurs in the remote command, the quoted remote audio
path occurs in it, and the quoted form of host "h i" does not occur in the
script-copy command. -/
theorem claim_c8_witness :
    (shlexQuote "a b").data <:+: (remoteCmd "m" (some "a b") "x.m4a" "x.txt").data ∧
    (shlexQuote ("/tmp/" ++ "x.m4a")).data <:+: (remoteCmd "m" none "x.m4a" "x.txt").data ∧
    ¬ (shlexQuote "h i").data <:+: (scriptCopyCmd "h i").data :=
  ⟨claim_c8_escaping_incomplete.1 "m" "a b" "x.m4a" "x.txt" (by decide),
    claim_c8_escaping_incomplete.2.1 "m" none "x.m4a" "x.txt",
    claim_c8_escaping_incomplete.2.2 "h i" (by decide)
      ⟨' ', by decide, by decide⟩⟩
